import Mathlib

/-!
Shallow embedding of `src/dataframe_to_turtle/dataframe_to_turtle.py` and
verification of the specification's claims about it.

The Python module has three functions:
  * `convert_dataframe_to_turtle(dataframe, config)` — the Turtle emitter;
  * `convert_file_to_turtle` — file I/O convenience wrapper (not modelled:
    purely I/O, no claim touches it);
  * `add_prefixes_to_config(config, ontology_base_uri, class_base_uri, separator)`.

Modelling choices:
  * A pandas cell value is `CellValue`: a Python `str`, `int`, `float`
    (represented by its decimal digits: `float num exp` stands for
    `num / 10 ^ exp`), or the missing sentinel `na` (NaN, detected by
    `pd.isna`).
  * A DataFrame is its list of column labels, its index (one value per row;
    pandas indices may hold any value, hence `CellValue`), and its rows
    (cell lists aligned with `columns`).
  * Python's in-place mutation `dataframe.index = dataframe[col]` is made
    explicit: the emitter returns the (possibly updated) DataFrame next to
    the output string, so frame properties are statable.
  * `raise ValueError(...)` becomes `Except.error` with the same message.
  * dicts keep insertion order, so `prefixes` is an association list and
    the `if key not in prefixes` inserts append-if-absent.
  * The `print` warning about mapped columns absent from the DataFrame is a
    console side effect with no influence on the returned value; it is
    dropped.
-/

set_option maxRecDepth 100000

namespace DataFrameToTurtle

/-- A Python cell value as pandas hands it to the emitter.
`float num exp` denotes the decimal number `num / 10 ^ exp` (e.g.
`float 305 1` is `30.5`); `na` is the missing sentinel (NaN). -/
inductive CellValue where
  | str (s : String)
  | int (n : Int)
  | float (num : Int) (exp : Nat)
  | na
deriving DecidableEq, Repr

/-- `pd.isna(value)`: true exactly on the missing sentinel. -/
def CellValue.isNA : CellValue → Bool
  | CellValue.na => true
  | _ => false

/-- Decimal text of the float `num / 10 ^ exp`, matching Python `str` on a
float whose shortest decimal form has exactly `exp` fractional digits
(`str(30.5) = "30.5"`, `str(30.0) = "30.0"`). -/
def floatRepr (num : Int) (exp : Nat) : String :=
  let sign := if num < 0 then "-" else ""
  let digits := toString num.natAbs
  if exp = 0 then sign ++ digits ++ ".0"
  else
    let padded :=
      if digits.length < exp + 1 then
        String.mk (List.replicate (exp + 1 - digits.length) '0') ++ digits
      else digits
    sign ++ padded.dropRight exp ++ "." ++ padded.takeRight exp

/-- Python `s.replace(old, new)` on characters: every non-overlapping
occurrence of `old`, scanned left to right, is replaced by `new`. The
recursion is structural on a character-count fuel so that the kernel can
evaluate it; the fuel bounds the scan and never runs out, since each step
consumes at least one character. -/
def pyReplaceAux (old new : List Char) : Nat → List Char → List Char
  | _, [] => []
  | 0, cs => cs
  | fuel + 1, c :: cs =>
    if old.isPrefixOf (c :: cs) then
      new ++ pyReplaceAux old new fuel (cs.drop (old.length - 1))
    else c :: pyReplaceAux old new fuel cs

/-- Python `s.replace(old, new)`. Every call site in the source passes a
non-empty `old` (`":"`, `" "`, `'"'`); an empty `old` keeps `s` unchanged
here, where Python would interleave `new` everywhere. -/
def pyReplace (s old new : String) : String :=
  if old.data.isEmpty then s
  else String.mk (pyReplaceAux old.data new.data s.data.length s.data)

/-- Splitting on a separator, character-level worker for `pySplitOn`,
fuel-structured like `pyReplaceAux`. -/
def pySplitOnAux (sep : List Char) : Nat → List Char → List Char → List (List Char)
  | _, acc, [] => [acc.reverse]
  | 0, acc, cs => [acc.reverse ++ cs]
  | fuel + 1, acc, c :: cs =>
    if sep.isPrefixOf (c :: cs) then
      acc.reverse :: pySplitOnAux sep fuel [] (cs.drop (sep.length - 1))
    else pySplitOnAux sep fuel (c :: acc) cs

/-- Python `s.split(sep)` for a non-empty `sep`: the pieces between
non-overlapping leftmost occurrences of `sep` (`"x".split("x") = ["", ""]`).
Also used on the statement side to cut a document into lines. -/
def pySplitOn (s sep : String) : List String :=
  if sep.data.isEmpty then [s]
  else (pySplitOnAux sep.data s.data.length [] s.data).map String.mk

/-- Python `str(value)` on a cell value (as used by f-string interpolation
and by `str(value)` in the relation branch). -/
def pyStr : CellValue → String
  | CellValue.str s => s
  | CellValue.int n => toString n
  | CellValue.float num exp => floatRepr num exp
  | CellValue.na => "nan"

/-- Python `int(value)` on the float `num / 10 ^ exp`: truncation toward
zero. -/
def pyTruncFloat (num : Int) (exp : Nat) : Int :=
  if 0 ≤ num then Int.ofNat (num.toNat / 10 ^ exp)
  else -Int.ofNat ((-num).toNat / 10 ^ exp)

/-- Python `s[:-1]`: drop the last character. -/
def strDropLast (s : String) : String := String.mk s.data.dropLast

/-- The tabular dataset: column labels, index (one entry per row) and rows
(each row's cells aligned with `columns`). -/
structure DataFrame where
  columns : List String
  index : List CellValue
  rows : List (List CellValue)
deriving DecidableEq, Repr

/-- `dataframe.empty` in pandas: true when any axis has length zero. -/
def DataFrame.empty (df : DataFrame) : Bool :=
  df.rows.isEmpty || df.columns.isEmpty

/-- `row[c]`: the cell of `row` under column label `c` (first matching
label). Emission only reads columns previously checked to be present, so
the `na` default of the impossible miss is never exercised. -/
def getCell (cols : List String) (row : List CellValue) (c : String) : CellValue :=
  match (cols.zip row).find? (fun p => p.1 = c) with
  | some p => p.2
  | none => CellValue.na

/-- `dataframe.index = dataframe[c]` (line 53): replace the index by the
values of column `c`, leaving columns and rows untouched. -/
def setIndexFromColumn (df : DataFrame) (c : String) : DataFrame :=
  { df with index := df.rows.map (fun r => getCell df.columns r c) }

/-- One entry of `config["mappings"]`: the mandatory `column` and
`predicate` keys plus the three optional keys `prefix` (here `pfx`),
`language` and `data_type`; `some`/`none` renders presence/absence of the
dict key. -/
structure Mapping where
  column : String
  predicate : String
  pfx : Option String
  language : Option String
  data_type : Option String
deriving DecidableEq, Repr

/-- `config["subject"]`: `column` is `none` for Python `None` (and
`some ""` models the falsy empty string); `pfx` renders the `prefix` key;
`classes` the class list. -/
structure Subject where
  column : Option String
  pfx : String
  classes : List String
deriving DecidableEq, Repr

/-- The whole `config` dict. `prefixes` is an insertion-ordered dict,
rendered as an association list. -/
structure Config where
  prefixes : List (String × String)
  subject : Subject
  mappings : List Mapping
deriving DecidableEq, Repr

/-- Line 43: `[m["column"] for m in mappings_list if m["column"] in
dataframe.columns]` (duplicates retained, mapping order kept). -/
def valid_column_names (ms : List Mapping) (cols : List String) : List String :=
  (ms.filter (fun m => cols.contains m.column)).map (fun m => m.column)

/-- Line 44: `{m["column"]: m for m in mappings_list if ...}` — a dict
comprehension, so for a duplicated column the last mapping wins. -/
def mapping_index (ms : List Mapping) (cols : List String) (c : String) : Option Mapping :=
  ((ms.filter (fun m => cols.contains m.column)).reverse).find? (fun m => m.column = c)

/-- Lines 78–92: format the RDF object term for `value` under `mapping`.
The branch order is the source's `if "prefix" in mapping / elif "language"
/ elif "data_type" / else` chain; the final branch distinguishes
`isinstance(value, (int, float))` (emitting `str(int(value))`) from the
string case (quotes escaped and surrounded by quotes). The `na` case is
unreachable: formatting happens only after the `pd.isna` guard. -/
def format_object (m : Mapping) (v : CellValue) : String :=
  match m.pfx with
  | some p => p ++ ":" ++ pyReplace (pyStr v) " " ""
  | none =>
    match m.language with
    | some lang => "\"" ++ pyStr v ++ "\"@" ++ lang
    | none =>
      match m.data_type with
      | some dt => "\"" ++ pyStr v ++ "\"^^" ++ dt
      | none =>
        match v with
        | CellValue.int n => toString n
        | CellValue.float num exp => toString (pyTruncFloat num exp)
        | CellValue.str s => "\"" ++ pyReplace s "\"" "\\\"" ++ "\""
        | CellValue.na => "\"\""

/-- Lines 69–94: the row's `predicate_lines` list, in `valid_column_names`
order, skipping cells for which `pd.isna(value)` holds. -/
def predicate_lines (ms : List Mapping) (cols : List String) (row : List CellValue) :
    List String :=
  (valid_column_names ms cols).filterMap (fun c =>
    match mapping_index ms cols c with
    | none => none
    | some m =>
      let v := getCell cols row c
      if v.isNA then none
      else some ("    " ++ m.predicate ++ " " ++ format_object m v))

/-- The subject header before its terminator:
`f"{subject_prefix}:{subject_id} a {', '.join(subject_classes)}"`. -/
def subject_header_base (cfg : Config) (id : CellValue) : String :=
  cfg.subject.pfx ++ ":" ++ pyStr id ++ " a " ++ String.intercalate ", " cfg.subject.classes

/-- Line 65: the header line as first appended, ending in ` ;`. -/
def subject_header (cfg : Config) (id : CellValue) : String :=
  subject_header_base cfg id ++ " ;"

/-- Lines 97–99: append ` ;` to every predicate line except the last,
` .` to the last. -/
def terminate_lines : List String → List String
  | [] => []
  | [l] => [l ++ " ."]
  | l :: l2 :: ls => (l ++ " ;") :: terminate_lines (l2 :: ls)

/-- Lines 64–104 for one `(subject_id, row)` pair of `iterrows()`: the
header, the terminated predicate lines, the empty-case rewrite
`lines[-1] = lines[-1][:-1] + " ."`, and the trailing blank line. -/
def row_block (cfg : Config) (cols : List String) (id : CellValue)
    (row : List CellValue) : List String :=
  let pls := predicate_lines cfg.mappings cols row
  if pls.isEmpty then [strDropLast (subject_header cfg id) ++ " .", ""]
  else subject_header cfg id :: terminate_lines pls ++ [""]

/-- Lines 58–59: one `@prefix label: <uri> .` line per `prefixes` entry,
in dict iteration (insertion) order. -/
def prefix_decls (pxs : List (String × String)) : List String :=
  pxs.map (fun p => "@prefix " ++ p.1 ++ ": <" ++ p.2 ++ "> .")

/-- Lines 55–106 after subject-index resolution: assemble all lines and
join with newlines. `iterrows()` pairs the index with the rows. -/
def emit_doc (cfg : Config) (df : DataFrame) : String :=
  String.intercalate "\n"
    (prefix_decls cfg.prefixes ++ [""] ++
      (df.index.zip df.rows).flatMap (fun p => row_block cfg df.columns p.1 p.2))

/-- Truthiness of `config["subject"]["column"]` in `if subject_index:`:
`None` and the empty string are falsy. -/
def subject_index_set : Option String → Bool
  | none => false
  | some c => !(c == "")

/-- `convert_dataframe_to_turtle` (lines 4–106). The returned pair carries
the output string together with the DataFrame as it stands after the call,
making the in-place index assignment of line 53 observable. -/
def convert_dataframe_to_turtle (df : DataFrame) (cfg : Config) :
    Except String (String × DataFrame) :=
  if df.empty then Except.error "Input DataFrame is empty."
  else
    match cfg.subject.column with
    | none => Except.ok (emit_doc cfg df, df)
    | some c =>
      if c = "" then Except.ok (emit_doc cfg df, df)
      else if df.columns.contains c then
        let df2 := setIndexFromColumn df c
        Except.ok (emit_doc cfg df2, df2)
      else Except.error ("Index column '" ++ c ++ "' not found in dataframe.")

/-- Lines 49–53 in isolation: the DataFrame as it stands after the
subject-index step, for the non-raising cases (the absent-column case
raises in the source; the final `else df` arm here is unreachable under
that hypothesis). -/
def resolved_frame (df : DataFrame) (cfg : Config) : DataFrame :=
  match cfg.subject.column with
  | none => df
  | some c =>
    if c = "" then df
    else if df.columns.contains c then setIndexFromColumn df c else df

/-- Python `sub in s` substring membership, for a non-empty `sub` (the
separator argument of `add_prefixes_to_config`, `"-"` by default; Python
would raise on splitting with an empty separator anyway). -/
def strContains (s sub : String) : Bool :=
  (pySplitOn s sub).length != 1

/-- Python `s.split(sep, 1)`: the part before the first occurrence of
`sep` and everything after it. -/
def split_first (s sep : String) : String × String :=
  match pySplitOn s sep with
  | [] => (s, "")
  | x :: rest => (x, String.intercalate sep rest)

/-- The `if key not in prefixes: prefixes[key] = value` insertion on the
insertion-ordered dict (lines 162–168): append only when the key is
absent. -/
def dict_set_default (pxs : List (String × String)) (k v : String) :
    List (String × String) :=
  if pxs.any (fun q => q.1 = k) then pxs else pxs ++ [(k, v)]

/-- Lines 155–168 on a term already known to be a string: substitute `:`
by the separator, skip when the separator is absent, otherwise split once
and register the ontology-level and class-level entries, each only when
its key is not yet present. -/
def handle_prefixed_term_str (sep obu cbu : String) (pxs : List (String × String))
    (term : String) : List (String × String) :=
  let t := pyReplace term ":" sep
  if !strContains t sep then pxs
  else
    let parts := split_first t sep
    let ontology := parts.1
    let cls := parts.2
    let pxs2 := dict_set_default pxs ontology (obu ++ "/" ++ ontology ++ "/")
    let class_key := ontology ++ sep ++ cls
    dict_set_default pxs2 class_key (cbu ++ "/" ++ ontology ++ "/" ++ cls ++ "/")

/-- A Python value reaching `handle_prefixed_term`: a string or one of the
non-string shapes a malformed config could hold. -/
inductive PyTerm where
  | str (s : String)
  | int (n : Int)
  | noneVal
  | listVal (ts : List String)
deriving DecidableEq, Repr

/-- `isinstance(term, str)`. -/
def isinstance_str : PyTerm → Bool
  | PyTerm.str _ => true
  | _ => false

/-- `term.replace(':', separator)` on an arbitrary Python value: on a
non-string it raises `AttributeError` (no `replace` attribute). -/
def py_replace (t : PyTerm) (old new : String) : Except String PyTerm :=
  match t with
  | PyTerm.str s => Except.ok (PyTerm.str (pyReplace s old new))
  | _ => Except.error "AttributeError: object has no attribute replace"

/-- `handle_prefixed_term` (lines 155–168) on an arbitrary Python value,
keeping the source's statement order: the `replace` call of line 156 runs
first (and raises on a non-string), then line 157's
`if not isinstance(term, str) or separator not in term: return` may skip,
then the entries are registered. -/
def handle_prefixed_term (sep obu cbu : String) (pxs : List (String × String))
    (term : PyTerm) : Except String (List (String × String)) :=
  match py_replace term ":" sep with
  | Except.error e => Except.error e
  | Except.ok t =>
    if !isinstance_str t then Except.ok pxs
    else
      match t with
      | PyTerm.str s =>
        if !strContains s sep then Except.ok pxs
        else
          let parts := split_first s sep
          let ontology := parts.1
          let cls := parts.2
          let pxs2 := dict_set_default pxs ontology (obu ++ "/" ++ ontology ++ "/")
          let class_key := ontology ++ sep ++ cls
          Except.ok
            (dict_set_default pxs2 class_key
              (cbu ++ "/" ++ ontology ++ "/" ++ cls ++ "/"))
      | _ => Except.ok pxs

/-- The terms `add_prefixes_to_config` scans, in source order (lines
170–182): the subject's `prefix`, each subject class, then each mapping's
`predicate` followed by its `prefix` when present. -/
def config_terms (cfg : Config) : List String :=
  cfg.subject.pfx :: cfg.subject.classes ++
    cfg.mappings.flatMap (fun m =>
      m.predicate :: (match m.pfx with | some p => [p] | none => []))

/-- `add_prefixes_to_config` (lines 142–186) on a well-typed config (every
scanned term a string): builds a fresh `prefixes` dict from the scanned
terms and installs it as `config["prefixes"]`, replacing any existing
section. -/
def add_prefixes_to_config (obu cbu sep : String) (cfg : Config) : Config :=
  { cfg with
    prefixes := (config_terms cfg).foldl (handle_prefixed_term_str sep obu cbu) [] }

/-- The language-tagged mapping used to refute claim C2. -/
def lang_map_ex : Mapping :=
  { column := "c", predicate := "ex:p", pfx := none, language := some "en",
    data_type := none }

/-- The bare plain-literal mapping (no optional keys) used for C1 and C3. -/
def plain_map_ex : Mapping :=
  { column := "c", predicate := "ex:p", pfx := none, language := none,
    data_type := none }

/-- The spec's scenario dataset: the single row
`{name: "Alice", age: 30, knows: "foaf:Bob"}`. -/
def scenario_df : DataFrame :=
  { columns := ["name", "age", "knows"],
    index := [CellValue.int 0],
    rows := [[CellValue.str "Alice", CellValue.int 30, CellValue.str "foaf:Bob"]] }

/-- The spec's scenario configuration: subject from column `name` with
prefix `foaf` and class `foaf:Person`; `name` a language-tagged literal,
`age` a typed literal, `knows` carrying no optional key at all (the spec
calls this a "relation without prefix"; the dict for it holds only
`column` and `predicate`). -/
def scenario_config : Config :=
  { prefixes := [("foaf", "http://xmlns.com/foaf/0.1/"),
                 ("xsd", "http://www.w3.org/2001/XMLSchema#")],
    subject := { column := some "name", pfx := "foaf", classes := ["foaf:Person"] },
    mappings :=
      [{ column := "name", predicate := "foaf:name", pfx := none,
         language := some "en", data_type := none },
       { column := "age", predicate := "foaf:age", pfx := none,
         language := none, data_type := some "xsd:integer" },
       { column := "knows", predicate := "foaf:knows", pfx := none,
         language := none, data_type := none }] }

/-- The document the emitter returns on the scenario (the `Except.ok`
payload; the error arm is never taken). -/
def scenario_output : String :=
  match convert_dataframe_to_turtle scenario_df scenario_config with
  | Except.ok p => p.1
  | Except.error e => e

/-- The scenario document cut into lines. -/
def scenario_lines : List String := pySplitOn scenario_output "\n"

/-- A one-row dataset whose only mapped cell is missing, for claim C4. -/
def empty_row_df : DataFrame :=
  { columns := ["name"], index := [CellValue.int 1], rows := [[CellValue.na]] }

/-- Configuration for `empty_row_df`: natural index as subject, one plain
mapping on the (always missing) `name` column. -/
def empty_row_config : Config :=
  { prefixes := [],
    subject := { column := none, pfx := "ex", classes := ["ex:T"] },
    mappings := [{ column := "name", predicate := "ex:name", pfx := none,
                   language := none, data_type := none }] }

/-- The emitted document for the all-missing row. -/
def empty_row_output : String :=
  match convert_dataframe_to_turtle empty_row_df empty_row_config with
  | Except.ok p => p.1
  | Except.error e => e

/-- The scenario DataFrame as the call leaves it: the index has been
reassigned to the `name` column's values (`["Alice"]`). -/
def scenario_result_df : DataFrame :=
  { columns := ["name", "age", "knows"],
    index := [CellValue.str "Alice"],
    rows := [[CellValue.str "Alice", CellValue.int 30, CellValue.str "foaf:Bob"]] }

/-! ## Shared lemmas -/

/-- `terminate_lines` appends ` ;` to every line but the last and ` .` to
the last. -/
theorem terminate_lines_eq (ls : List String) :
    terminate_lines ls =
      ls.dropLast.map (fun l => l ++ " ;") ++
        (match ls.getLast? with | some l => [l ++ " ."] | none => []) := by
  induction ls with
  | nil => rfl
  | cons l tl ih =>
    cases tl with
    | nil => rfl
    | cons l2 rest =>
      simp only [terminate_lines, ih, List.dropLast_cons₂, List.map_cons,
        List.getLast?_cons_cons, List.cons_append]

/-- Python's `s[:-1]` on a string ending in `" ;"` keeps the space and
drops only the semicolon. -/
theorem strDropLast_space_semi (s : String) : strDropLast (s ++ " ;") = s ++ " " := by
  apply String.ext
  have h1 : (s ++ " ;").data = (s.data ++ [' ']) ++ [';'] := by
    rw [String.data_append]; simp
  have h2 : (s ++ " ").data = s.data ++ [' '] := by
    rw [String.data_append]
  simp only [strDropLast, h1, h2, List.dropLast_concat]

/-! ## Claim theorems -/

/-- Claim C7 (confirmed): the `if "prefix" / elif "language" / elif
"data_type" / else` chain of lines 78–92 gives the fixed precedence
Relation > LanguageLiteral > TypedLiteral > plain Literal: a `prefix` key
always wins no matter which other keys are present, then `language`, then
`data_type`. -/
theorem format_object_kind_precedence (col pred : String) (p l d : Option String)
    (v : CellValue) :
    (∀ ps, p = some ps →
      format_object ⟨col, pred, p, l, d⟩ v = ps ++ ":" ++ pyReplace (pyStr v) " " "") ∧
    (p = none → ∀ ls, l = some ls →
      format_object ⟨col, pred, p, l, d⟩ v = "\"" ++ pyStr v ++ "\"@" ++ ls) ∧
    (p = none → l = none → ∀ ds, d = some ds →
      format_object ⟨col, pred, p, l, d⟩ v = "\"" ++ pyStr v ++ "\"^^" ++ ds) := by
  refine ⟨?_, ?_, ?_⟩ <;> intros <;> subst_vars <;> rfl

/-- Witness for C7: a mapping carrying all three optional keys formats as
a relation (whitespace stripped from the value, no quotes). -/
theorem format_object_kind_precedence_witness :
    format_object ⟨"knows", "foaf:knows", some "foaf", some "en", some "xsd:string"⟩
        (CellValue.str "Bob Jr") = "foaf:BobJr" :=
  (format_object_kind_precedence "knows" "foaf:knows" (some "foaf") (some "en")
      (some "xsd:string") (CellValue.str "Bob Jr")).1 "foaf" rfl

/-- Claim C2 counterexample: a language-tagged literal whose value holds a
double quote is emitted with the quote left unescaped — the object term
for value `a"b` is `"a"b"@en`, which contains no `\"` at all (line 84
interpolates the raw value). -/
theorem format_object_language_no_escape :
    format_object lang_map_ex (CellValue.str "a\"b") = "\"a\"b\"@en" ∧
    (pySplitOn (format_object lang_map_ex (CellValue.str "a\"b")) "\\\"").length = 1 := by
  exact ⟨rfl, rfl⟩

/-- Claim C2 (amended): only the plain-literal branch escapes embedded
double quotes; the language-tagged and typed branches (lines 84 and 87)
interpolate the value unchanged. -/
theorem format_object_escaping_by_kind (m : Mapping) (s lang dt : String) :
    (m.pfx = none → m.language = some lang →
      format_object m (CellValue.str s) = "\"" ++ s ++ "\"@" ++ lang) ∧
    (m.pfx = none → m.language = none → m.data_type = some dt →
      format_object m (CellValue.str s) = "\"" ++ s ++ "\"^^" ++ dt) ∧
    (m.pfx = none → m.language = none → m.data_type = none →
      format_object m (CellValue.str s) = "\"" ++ pyReplace s "\"" "\\\"" ++ "\"") := by
  obtain ⟨col, pred, p, l, d⟩ := m
  refine ⟨?_, ?_, ?_⟩ <;> intros <;> subst_vars <;> rfl

/-- Witness for the amended C2: the language branch really does emit the
embedded quote raw. -/
theorem format_object_escaping_by_kind_witness :
    format_object lang_map_ex (CellValue.str "say \"hi\"") = "\"say \"hi\"\"@en" :=
  (format_object_escaping_by_kind lang_map_ex "say \"hi\"" "en" "x").1 rfl rfl

/-- Claim C3 counterexample: under a plain-literal mapping the decimal
cell value `30.5` is emitted as `30` — line 90's `str(int(value))`
truncates it — and not as its decimal textual form `30.5`. -/
theorem format_object_decimal_truncated :
    format_object plain_map_ex (CellValue.float 305 1) = "30" ∧
    format_object plain_map_ex (CellValue.float 305 1) ≠ "30.5" := by
  exact ⟨rfl, by decide⟩

/-- Claim C3 (amended): a numeric value under a plain-literal mapping is
emitted unquoted as `str(int(value))` — integers verbatim, floats
truncated toward zero to an integer — while a string value is emitted
quoted with embedded quotes escaped. -/
theorem format_object_plain_literal (m : Mapping) (n num : Int) (exp : Nat) (s : String)
    (h1 : m.pfx = none) (h2 : m.language = none) (h3 : m.data_type = none) :
    format_object m (CellValue.int n) = toString n ∧
    format_object m (CellValue.float num exp) = toString (pyTruncFloat num exp) ∧
    format_object m (CellValue.str s) = "\"" ++ pyReplace s "\"" "\\\"" ++ "\"" := by
  obtain ⟨col, pred, p, l, d⟩ := m
  dsimp only at h1 h2 h3
  subst_vars
  exact ⟨rfl, rfl, rfl⟩

/-- Witness for the amended C3: `30.5` under a plain-literal mapping comes
out as the truncated integer text `30`, and an integer comes out
verbatim. -/
theorem format_object_plain_literal_witness :
    format_object plain_map_ex (CellValue.float 305 1) = toString (pyTruncFloat 305 1) ∧
    format_object plain_map_ex (CellValue.int 30) = "30" :=
  ⟨(format_object_plain_literal plain_map_ex 30 305 1 "" rfl rfl rfl).2.1,
   (format_object_plain_literal plain_map_ex 30 305 1 "" rfl rfl rfl).1⟩

/-- Claim C1 counterexample: the scenario output does not contain the
claimed line `    foaf:knows foaf:Bob .`. The code has no bare-relation
kind — a mapping is a relation only when a `prefix` key is present (line
78) — so the `knows` value falls through to the plain-literal branch and
is emitted quoted: the line actually present is
`    foaf:knows "foaf:Bob" .`. -/
theorem scenario_no_bare_relation_line :
    scenario_lines.contains "    foaf:knows foaf:Bob ." = false ∧
    scenario_lines.contains "    foaf:knows \"foaf:Bob\" ." = true := ⟨rfl, rfl⟩

/-- Claim C1 (amended): a mapping with no `prefix` key is not resolved as
a relation; with no `language`/`data_type` either, its string value is
emitted as a plain literal — quoted, embedded quotes escaped — and in the
scenario the knows line is `    foaf:knows "foaf:Bob" .`. -/
theorem mapping_without_pfx_is_quoted_literal (m : Mapping) (s : String)
    (h1 : m.pfx = none) (h2 : m.language = none) (h3 : m.data_type = none) :
    format_object m (CellValue.str s) = "\"" ++ pyReplace s "\"" "\\\"" ++ "\"" ∧
    scenario_lines.contains "    foaf:knows \"foaf:Bob\" ." = true := by
  obtain ⟨col, pred, p, l, d⟩ := m
  dsimp only at h1 h2 h3
  subst_vars
  exact ⟨rfl, rfl⟩

/-- Witness for the amended C1 at the scenario value itself. -/
theorem mapping_without_pfx_is_quoted_literal_witness :
    format_object plain_map_ex (CellValue.str "foaf:Bob") = "\"foaf:Bob\"" :=
  (mapping_without_pfx_is_quoted_literal plain_map_ex "foaf:Bob" rfl rfl rfl).1

/-- Claim C4 counterexample: for the row with every mapped value missing,
the rewritten header line is `ex:1 a ex:T  .` — line 102 slices off only
the `;` character and appends ` .`, leaving two spaces — and the claimed
line `ex:1 a ex:T .` (` ;` replaced by ` .` exactly) is absent. -/
theorem empty_row_header_double_space :
    (pySplitOn empty_row_output "\n").contains "ex:1 a ex:T  ." = true ∧
    (pySplitOn empty_row_output "\n").contains "ex:1 a ex:T ." = false := ⟨rfl, rfl⟩

/-- Claim C4 (amended): for a row with no emitted predicate, the block is
the header with its final `;` character dropped and ` .` appended — i.e.
the class assertion ends in `"  ."`, two spaces before the dot — followed
by the blank line; for a row with at least one predicate, the block is the
` ;`-terminated header, then the predicate lines, every one but the last
extended with ` ;` and the last with ` .`, then the blank line. -/
theorem row_block_terminators (cfg : Config) (cols : List String) (id : CellValue)
    (row : List CellValue) :
    (predicate_lines cfg.mappings cols row = [] →
      row_block cfg cols id row = [subject_header_base cfg id ++ "  .", ""]) ∧
    (predicate_lines cfg.mappings cols row ≠ [] →
      row_block cfg cols id row =
        subject_header cfg id ::
          ((predicate_lines cfg.mappings cols row).dropLast.map (fun l => l ++ " ;") ++
            (match (predicate_lines cfg.mappings cols row).getLast? with
             | some l => [l ++ " ."]
             | none => [])) ++ [""]) := by
  have h2 : strDropLast (subject_header cfg id) ++ " ." =
      subject_header_base cfg id ++ "  ." := by
    rw [subject_header, strDropLast_space_semi]
    apply String.ext
    simp [String.data_append]
  constructor
  · intro h
    simp [row_block, h, h2]
  · intro h
    have hne : (predicate_lines cfg.mappings cols row).isEmpty = false := by
      simpa [List.isEmpty_iff] using h
    simp only [row_block, hne, Bool.false_eq_true, if_false]
    rw [terminate_lines_eq]

/-- Witness for the amended C4 at the all-missing row. -/
theorem row_block_terminators_witness :
    row_block empty_row_config ["name"] (CellValue.int 1) [CellValue.na] =
      ["ex:1 a ex:T  .", ""] := by
  rw [(row_block_terminators empty_row_config ["name"] (CellValue.int 1)
    [CellValue.na]).1 rfl]
  rfl

/-- Claim C5 (confirmed): a zero-row dataset makes the emitter fail with
the empty-input error before any output exists; a dataset non-empty on
both axes whose subject source column (when set) is present returns
`Except.ok` carrying the complete document. -/
theorem convert_empty_and_total (df : DataFrame) (cfg : Config) :
    (df.rows = [] →
      convert_dataframe_to_turtle df cfg = Except.error "Input DataFrame is empty.") ∧
    (df.rows ≠ [] → df.columns ≠ [] →
      (∀ c, cfg.subject.column = some c → c ≠ "" → c ∈ df.columns) →
      convert_dataframe_to_turtle df cfg =
        Except.ok (emit_doc cfg (resolved_frame df cfg), resolved_frame df cfg)) := by
  constructor
  · intro h
    simp [convert_dataframe_to_turtle, DataFrame.empty, h]
  · intro h1 h2 h3
    have hemp : df.empty = false := by
      simp [DataFrame.empty, h1, h2]
    cases hcol : cfg.subject.column with
    | none => simp [convert_dataframe_to_turtle, hemp, resolved_frame, hcol]
    | some c =>
      by_cases hce : c = ""
      · subst hce
        simp [convert_dataframe_to_turtle, hemp, resolved_frame, hcol]
      · have hmem := h3 c hcol hce
        simp [convert_dataframe_to_turtle, hemp, resolved_frame, hcol, hce, hmem]

/-- Witness for C5: both branches exercised — a zero-row frame errors, the
scenario frame returns its full document. -/
theorem convert_empty_and_total_witness :
    convert_dataframe_to_turtle { columns := [], index := [], rows := [] }
        scenario_config = Except.error "Input DataFrame is empty." ∧
    convert_dataframe_to_turtle scenario_df scenario_config =
      Except.ok (emit_doc scenario_config (resolved_frame scenario_df scenario_config),
        resolved_frame scenario_df scenario_config) :=
  ⟨(convert_empty_and_total { columns := [], index := [], rows := [] }
      scenario_config).1 rfl,
   (convert_empty_and_total scenario_df scenario_config).2 (by decide) (by decide)
     (fun c hc _ => by cases Option.some.inj hc; decide)⟩

/-- Claim C6 (confirmed): on a dataset that passes the emptiness check, a
subject source column set to an absent name fails with the missing-column
error; set to a present name, the index — and with it every row's subject
identifier — becomes that column's cell values; unset (or the falsy empty
string), the natural index is used unchanged. -/
theorem convert_subject_resolution (df : DataFrame) (cfg : Config)
    (hr : df.rows ≠ []) (hc : df.columns ≠ []) :
    (∀ c, cfg.subject.column = some c → c ≠ "" → c ∉ df.columns →
      convert_dataframe_to_turtle df cfg =
        Except.error ("Index column '" ++ c ++ "' not found in dataframe.")) ∧
    (∀ c, cfg.subject.column = some c → c ≠ "" → c ∈ df.columns →
      convert_dataframe_to_turtle df cfg =
        Except.ok (emit_doc cfg (setIndexFromColumn df c), setIndexFromColumn df c) ∧
      (setIndexFromColumn df c).index = df.rows.map (fun r => getCell df.columns r c)) ∧
    ((cfg.subject.column = none ∨ cfg.subject.column = some "") →
      convert_dataframe_to_turtle df cfg = Except.ok (emit_doc cfg df, df)) := by
  have hemp : df.empty = false := by
    simp [DataFrame.empty, hr, hc]
  refine ⟨?_, ?_, ?_⟩
  · intro c h1 h2 h3
    simp [convert_dataframe_to_turtle, hemp, h1, h2, h3]
  · intro c h1 h2 h3
    exact ⟨by simp [convert_dataframe_to_turtle, hemp, h1, h2, h3], rfl⟩
  · rintro (h | h) <;> simp [convert_dataframe_to_turtle, hemp, h]

/-- Witness for C6 at the scenario: the subject identifiers become the
`name` column's values. -/
theorem convert_subject_resolution_witness :
    (setIndexFromColumn scenario_df "name").index = [CellValue.str "Alice"] := by
  rw [((convert_subject_resolution scenario_df scenario_config (by decide)
      (by decide)).2.1 "name" rfl (by decide) (by decide)).2]
  rfl

/-- Claim C9 counterexample: the call mutates its input — on the scenario
the frame comes back with index `["Alice"]` although the dataset went in
with index `[0]` (line 53 assigns `dataframe.index` in place), so the
dataset is not unchanged after the call. -/
theorem convert_mutates_index :
    (convert_dataframe_to_turtle scenario_df scenario_config).toOption.map
        (fun p => p.2.index) = some [CellValue.str "Alice"] ∧
    scenario_df.index = [CellValue.int 0] ∧
    CellValue.str "Alice" ≠ CellValue.int 0 :=
  ⟨rfl, rfl, by decide⟩

/-- Claim C9 (amended): rows, cell values and column labels are left
untouched, and with the subject column unset (or empty) the whole frame is
unchanged; but when a subject source column is set, the input frame's
index is overwritten in place with that column's values. -/
theorem convert_frame_effect (df : DataFrame) (cfg : Config) (out : String)
    (df2 : DataFrame)
    (h : convert_dataframe_to_turtle df cfg = Except.ok (out, df2)) :
    df2.columns = df.columns ∧ df2.rows = df.rows ∧
    ((cfg.subject.column = none ∨ cfg.subject.column = some "") → df2 = df) ∧
    (∀ c, cfg.subject.column = some c → c ≠ "" →
      df2.index = df.rows.map (fun r => getCell df.columns r c)) := by
  by_cases hemp : df.empty
  · simp [convert_dataframe_to_turtle, hemp] at h
  · rw [Bool.not_eq_true] at hemp
    cases hcol : cfg.subject.column with
    | none =>
      simp [convert_dataframe_to_turtle, hemp, hcol] at h
      obtain ⟨-, h2⟩ := h
      subst h2
      exact ⟨rfl, rfl, fun _ => rfl, fun c hcEq _ => by cases hcEq⟩
    | some c =>
      by_cases hce : c = ""
      · subst hce
        simp [convert_dataframe_to_turtle, hemp, hcol] at h
        obtain ⟨-, h2⟩ := h
        subst h2
        refine ⟨rfl, rfl, fun _ => rfl, fun c' hcEq hne => ?_⟩
        cases Option.some.inj hcEq
        exact absurd rfl hne
      · by_cases hmem : c ∈ df.columns
        · simp [convert_dataframe_to_turtle, hemp, hcol, hce, hmem] at h
          obtain ⟨-, h2⟩ := h
          subst h2
          refine ⟨rfl, rfl, ?_, ?_⟩
          · rintro (habs | habs)
            · exact Option.noConfusion habs
            · exact absurd (Option.some.inj habs) hce
          · intro c' hcEq _
            cases Option.some.inj hcEq
            rfl
        · simp [convert_dataframe_to_turtle, hemp, hcol, hce, hmem] at h

/-- Witness for the amended C9 at the scenario: the returned frame's index
is the `name` column. -/
theorem convert_frame_effect_witness :
    scenario_result_df.index =
      scenario_df.rows.map (fun r => getCell scenario_df.columns r "name") :=
  (convert_frame_effect scenario_df scenario_config scenario_output
      scenario_result_df rfl).2.2.2 "name" rfl (by decide)

/-- `dict_set_default` keeps the dict's key list duplicate-free. -/
theorem dict_set_default_keys_nodup (pxs : List (String × String)) (k v : String)
    (h : (pxs.map Prod.fst).Nodup) :
    ((dict_set_default pxs k v).map Prod.fst).Nodup := by
  unfold dict_set_default
  split
  · exact h
  case isFalse hk =>
    rw [List.map_append]
    refine List.Nodup.append h (by simp) ?_
    intro a ha hb
    simp only [List.map_cons, List.map_nil, List.mem_singleton] at hb
    subst hb
    obtain ⟨q, hq, hq2⟩ := List.mem_map.mp ha
    exact hk (List.any_eq_true.mpr ⟨q, hq, by simp [hq2]⟩)

/-- One `handle_prefixed_term_str` step keeps the key list
duplicate-free. -/
theorem handle_prefixed_term_str_keys_nodup (sep obu cbu : String)
    (pxs : List (String × String)) (term : String)
    (h : (pxs.map Prod.fst).Nodup) :
    ((handle_prefixed_term_str sep obu cbu pxs term).map Prod.fst).Nodup := by
  unfold handle_prefixed_term_str
  dsimp only
  split
  · exact h
  · exact dict_set_default_keys_nodup _ _ _ (dict_set_default_keys_nodup _ _ _ h)

/-- Folding `handle_prefixed_term_str` over any term list keeps the key
list duplicate-free. -/
theorem foldl_handle_keys_nodup (sep obu cbu : String) (terms : List String)
    (pxs : List (String × String)) (h : (pxs.map Prod.fst).Nodup) :
    ((terms.foldl (handle_prefixed_term_str sep obu cbu) pxs).map Prod.fst).Nodup := by
  induction terms generalizing pxs with
  | nil => exact h
  | cons t ts ih =>
    exact ih _ (handle_prefixed_term_str_keys_nodup sep obu cbu pxs t h)

/-- On a string term, `handle_prefixed_term` never raises and computes
exactly the `handle_prefixed_term_str` update. -/
theorem handle_prefixed_term_on_str (sep obu cbu : String)
    (pxs : List (String × String)) (s : String) :
    handle_prefixed_term sep obu cbu pxs (PyTerm.str s) =
      Except.ok (handle_prefixed_term_str sep obu cbu pxs s) := by
  simp only [handle_prefixed_term, py_replace, isinstance_str, Bool.not_true,
    Bool.false_eq_true, if_false, handle_prefixed_term_str]
  split <;> rfl

/-- Claim C8 (confirmed): running `add_prefixes_to_config` twice yields
the identical config — the second run scans the unchanged subject and
mappings and rebuilds the very same `prefixes` dict, so re-running
neither overwrites nor duplicates any key it installed — and within a run
the membership guards keep the synthesized key list duplicate-free. -/
theorem add_prefixes_to_config_idempotent (obu cbu sep : String) (cfg : Config) :
    add_prefixes_to_config obu cbu sep (add_prefixes_to_config obu cbu sep cfg) =
      add_prefixes_to_config obu cbu sep cfg ∧
    ((add_prefixes_to_config obu cbu sep cfg).prefixes.map Prod.fst).Nodup :=
  ⟨rfl, foldl_handle_keys_nodup sep obu cbu (config_terms cfg) [] List.nodup_nil⟩

/-- Claim C10 (confirmed): `handle_prefixed_term` runs line 156's
`.replace` before line 157's `isinstance` guard, so every non-string term
raises `AttributeError` instead of being skipped silently; and whenever
the `replace` succeeds, its result is a string, so the
`not isinstance(term, str)` disjunct of the guard never fires — it is
unreachable as a rejection path. -/
theorem handle_prefixed_term_nonstring_raises (sep obu cbu : String)
    (pxs : List (String × String)) (term : PyTerm) :
    ((∀ s, term ≠ PyTerm.str s) →
      handle_prefixed_term sep obu cbu pxs term =
        Except.error "AttributeError: object has no attribute replace") ∧
    (∀ t, py_replace term ":" sep = Except.ok t → isinstance_str t = true) := by
  cases term with
  | str s =>
    refine ⟨fun h => absurd rfl (h s), fun t ht => ?_⟩
    cases Except.ok.inj ht
    rfl
  | int n => exact ⟨fun _ => rfl, fun t ht => Except.noConfusion ht⟩
  | noneVal => exact ⟨fun _ => rfl, fun t ht => Except.noConfusion ht⟩
  | listVal ts => exact ⟨fun _ => rfl, fun t ht => Except.noConfusion ht⟩

/-- Witness for C10: the integer term `5` raises rather than being
silently skipped. -/
theorem handle_prefixed_term_nonstring_raises_witness :
    handle_prefixed_term "-" "http://example.com/ontology"
        "http://example.com/data" [] (PyTerm.int 5) =
      Except.error "AttributeError: object has no attribute replace" :=
  (handle_prefixed_term_nonstring_raises "-" "http://example.com/ontology"
      "http://example.com/data" [] (PyTerm.int 5)).1
    (fun _ h => PyTerm.noConfusion h)

end DataFrameToTurtle
